import Mathlib

/-!
Verification development for the combine-video HTTP service.

The repository consists of several near-duplicate Express servers that
download two video segments, re-encode/stack them with ffmpeg, publish the
results and clean temporary files up.  This file gives a shallow embedding
of the decision logic of those servers:

* `isCookieError`, `runWithRotatingCookies` — the cookie-rotation download
  loop of `src/unnamed/part_001`;
* `retryOperation`, `backoffDelay` — the retry wrapper of
  `src/server-segment-two.js` (the sleeping itself is modelled by
  `backoffDelay`, which computes the waiting time the wrapper would use);
* `combineTwoPart000` — the end state of the `/combine-two` handler of
  `src/unnamed/part_000` (which artifacts stay on disk, which status is
  sent) as a function of which pipeline step fails;
* `getVideoUrlsPart001` — the same for the `/get-video-urls` handler of
  `src/unnamed/part_001`;
* `segTwoGetVideoUrls` and the download attempts of
  `src/server-segment-two.js` with their file-size checks;
* `part000Action` / `serverJsAction` — the request validation of
  `src/unnamed/part_000` and `src/server.js`;
* `natToStr`, `mainSegmentName`, … — the timestamp-interpolated artifact
  file names.

Filesystem operations are modelled by explicit state: a download that the
environment marks as failing produces no file, `fs.unlink` always succeeds.
-/

/-- Substring test on character lists: `hasSubstr hay needle` is `true` iff
`needle` occurs contiguously inside `hay`.  This models the JavaScript
`String.prototype.includes` used by `isCookieError`. -/
def hasSubstr (hay needle : List Char) : Bool :=
  needle.isPrefixOf hay ||
    match hay with
    | [] => false
    | _ :: t => hasSubstr t needle

/-- The lower-cased concatenation `(err.message + (stderr || '')).toLowerCase()`
built by `isCookieError` in `src/unnamed/part_001`. -/
def lowerConcat (message stderrText : String) : List Char :=
  ((message ++ stderrText).data).map Char.toLower

/-- `isCookieError` from `src/unnamed/part_001` (lines 42-49): an error is
cookie-related iff the lower-cased message+stderr contains one of the five
indicator substrings. -/
def isCookieError (message stderrText : String) : Bool :=
  let msg := lowerConcat message stderrText
  hasSubstr msg "unable to load cookies".data
    || hasSubstr msg "cookie".data
    || hasSubstr msg "certificate".data
    || hasSubstr msg "403".data
    || hasSubstr msg "forbidden".data

/-- Result of the rotating-cookie loop: success using a credential, a
non-cookie fatal error thrown from inside the loop, or pool exhaustion
(the `No valid cookie files remaining` error).  Each constructor carries
the list of cookie files the loop deleted (`fs.unlinkSync`). -/
inductive RotateOutcome (κ : Type) where
  | ok (used : κ) (deleted : List κ)
  | fatal (failed : κ) (message stderrText : String) (deleted : List κ)
  | noValid (deleted : List κ)
deriving DecidableEq

/-- `runWithRotatingCookies` from `src/unnamed/part_001` (lines 53-74).
`behave c` is the outcome of executing the yt-dlp command with cookie file
`c`: `none` for success, `some (message, stderrText)` for a thrown error.
On a cookie-classified error the file is deleted and the next one is tried;
any other error is rethrown at once; an exhausted pool raises the
no-valid-cookies error. -/
def runWithRotatingCookies {κ : Type} (behave : κ → Option (String × String)) :
    List κ → RotateOutcome κ
  | [] => .noValid []
  | c :: rest =>
    match behave c with
    | none => .ok c []
    | some (m, s) =>
      if isCookieError m s then
        match runWithRotatingCookies behave rest with
        | .ok u d => .ok u (c :: d)
        | .fatal f m' s' d => .fatal f m' s' (c :: d)
        | .noValid d => .noValid (c :: d)
      else .fatal c m s []

/-- The cookie files the loop actually invokes yt-dlp with, in order. -/
def attempted {κ : Type} (behave : κ → Option (String × String)) :
    List κ → List κ
  | [] => []
  | c :: rest =>
    match behave c with
    | none => [c]
    | some (m, s) =>
      if isCookieError m s then c :: attempted behave rest else [c]

/-- `true` iff an attempt outcome is an authentication-class
(cookie-classified) failure. -/
def isAuthFailure : Option (String × String) → Bool
  | none => false
  | some (m, s) => isCookieError m s

/-- The cookie directory after a run: `getCookieFiles` re-reads the
directory, so exactly the not-deleted files remain. -/
def filesAfter {κ : Type} [DecidableEq κ] (fs deleted : List κ) : List κ :=
  fs.filter (fun f => !(deleted.contains f))

/-- One step of `retryOperation` from `src/server-segment-two.js`
(lines 181-204): `attempt` is the 1-based loop counter, the second argument
the remaining number of attempts, the third the last stored error.  Returns
the final result together with how many times `operation` was invoked.
The error component is an `Option` because with a zero attempt budget the
source throws the uninitialised `lastError`. -/
def retryFrom {E A : Type} (op : Nat → Except E A) :
    Nat → Nat → Option E → Except (Option E) A × Nat
  | _, 0, last => (.error last, 0)
  | attempt, r + 1, _ =>
    match op attempt with
    | .ok a => (.ok a, 1)
    | .error e =>
      let p := retryFrom op (attempt + 1) r (some e)
      (p.1, p.2 + 1)

/-- `retryOperation(operation, maxRetries = 3, initialDelay = 2000)` from
`src/server-segment-two.js`: run `op` starting at attempt 1 with the given
total budget (the source defaults it to 3).  The waiting between attempts
is modelled separately by `backoffDelay`. -/
def retryOperation {E A : Type} (op : Nat → Except E A) (maxRetries : Nat) :
    Except (Option E) A × Nat :=
  retryFrom op 1 maxRetries none

/-- The backoff waiting time of `retryOperation`
(`initialDelay * Math.pow(2, attempt - 1) * (0.5 + Math.random())`),
with `rand` standing for the value returned by `Math.random()`. -/
def backoffDelay (initialDelay : ℚ) (attempt : Nat) (rand : ℚ) : ℚ :=
  initialDelay * 2 ^ (attempt - 1) * (1 / 2 + rand)

/-- Environment for the `/combine-two` handler of `src/unnamed/part_000`:
whether each external step (main yt-dlp download, background yt-dlp
download, ffmpeg combine, `res.sendFile`) succeeds. -/
structure CombineTwoEnv where
  mainOk : Bool
  bgOk : Bool
  ffmpegOk : Bool
  sendOk : Bool
deriving DecidableEq

/-- Which of the three artifacts of `/combine-two` exist on disk. -/
structure CombineDisk where
  mainSegment : Bool
  backgroundSegment : Bool
  combinedOutput : Bool
deriving DecidableEq

/-- Final HTTP status and final disk state of a `/combine-two` request. -/
structure CombineTwoResult where
  status : Nat
  disk : CombineDisk
deriving DecidableEq

/-- End state of the `/combine-two` handler of `src/unnamed/part_000`
(lines 24-96, identical control flow in `src/server.js` except for the
output-file cleanup).  A failing download produces no file; the two segment
files are unlinked only inside the ffmpeg callback, and the combined output
only after a successful send. -/
def combineTwoPart000 (env : CombineTwoEnv) : CombineTwoResult :=
  if !env.mainOk then
    -- main download failed: respond 500; nothing was downloaded yet
    ⟨500, ⟨false, false, false⟩⟩
  else if !env.bgOk then
    -- background download failed: respond 500; the main segment from the
    -- already-completed first step is NOT unlinked in this branch
    ⟨500, ⟨true, false, false⟩⟩
  else if !env.ffmpegOk then
    -- ffmpeg callback ran: both segments are unlinked, no output produced
    ⟨500, ⟨false, false, false⟩⟩
  else if !env.sendOk then
    -- send failed: segments unlinked, but the combined output is not
    ⟨500, ⟨false, false, true⟩⟩
  else
    -- success: segments unlinked, output unlinked after sending
    ⟨200, ⟨false, false, false⟩⟩

/-- Environment for the `/get-video-urls` handler of `src/unnamed/part_001`:
whether each awaited step of the try block succeeds. -/
structure GetVideoUrlsEnv where
  mainDl : Bool
  bgDl : Bool
  reencodeMain : Bool
  reencodeBg : Bool
  copyMainOk : Bool
  copyBgOk : Bool
deriving DecidableEq

/-- Disk state for `/get-video-urls`: the four temporary artifacts in
`downloads/` and the two published copies in `videos/`. -/
structure VideoDisk where
  mainSegment : Bool
  backgroundSegment : Bool
  mainReencoded : Bool
  backgroundReencoded : Bool
  publicMain : Bool
  publicBackground : Bool
deriving DecidableEq

/-- Body of the `/get-video-urls` response: the published URL pair on
success, or the JSON error object. -/
inductive VideoBody where
  | urls (mainVideoUrl backgroundVideoUrl : String)
  | jsonError
deriving DecidableEq

/-- Final HTTP status, body and disk state of a `/get-video-urls` request. -/
structure GetVideoUrlsResult where
  status : Nat
  body : VideoBody
  disk : VideoDisk
deriving DecidableEq

/-- Decimal rendering of a natural number, as produced by JavaScript
template interpolation of `Date.now()`.  Fuel-based so that it is
structurally recursive; `natToStr` supplies enough fuel. -/
def natToStrAux : Nat → Nat → List Char
  | 0, _ => []
  | fuel + 1, n =>
    if n < 10 then [Nat.digitChar n]
    else natToStrAux fuel (n / 10) ++ [Nat.digitChar (n % 10)]

/-- Decimal string of a natural number. -/
def natToStr (n : Nat) : String :=
  String.mk (natToStrAux (n + 1) n)

/-- `main-${timestamp}.mp4` from `src/unnamed/part_001` (line 91). -/
def mainSegmentName (ts : Nat) : String :=
  "main-" ++ natToStr ts ++ ".mp4"

/-- `background-${timestamp}.mp4` from `src/unnamed/part_001` (line 92). -/
def backgroundSegmentName (ts : Nat) : String :=
  "background-" ++ natToStr ts ++ ".mp4"

/-- `main-reencoded-${timestamp}.mp4` from `src/unnamed/part_001` (line 93). -/
def mainReencodedName (ts : Nat) : String :=
  "main-reencoded-" ++ natToStr ts ++ ".mp4"

/-- `background-reencoded-${timestamp}.mp4` from `src/unnamed/part_001`
(line 94). -/
def backgroundReencodedName (ts : Nat) : String :=
  "background-reencoded-" ++ natToStr ts ++ ".mp4"

/-- The four temporary artifact names a `/get-video-urls` request stamped
`ts` creates under `downloads/`. -/
def part001ArtifactNames (ts : Nat) : List String :=
  [mainSegmentName ts, backgroundSegmentName ts,
   mainReencodedName ts, backgroundReencodedName ts]

/-- Published URL of the re-encoded main segment (line 99 of
`src/unnamed/part_001`). -/
def publicMainUrl (ts : Nat) : String :=
  "https://combine-video-production.up.railway.app/videos/main-"
    ++ natToStr ts ++ ".mp4"

/-- Published URL of the re-encoded background segment (line 100 of
`src/unnamed/part_001`). -/
def publicBackgroundUrl (ts : Nat) : String :=
  "https://combine-video-production.up.railway.app/videos/background-"
    ++ natToStr ts ++ ".mp4"

/-- End state of the `/get-video-urls` handler of `src/unnamed/part_001`
(lines 80-149).  The try block runs main download, background download, the
two ffmpeg re-encodes, the two `copyFile`s to `videos/`, then unlinks the
four temporary files and answers 200; the catch block answers 500 and
unlinks the same four temporary files (best-effort, and they are the only
files unlinked there). -/
def getVideoUrlsPart001 (ts : Nat) (env : GetVideoUrlsEnv) : GetVideoUrlsResult :=
  if !env.mainDl then
    ⟨500, .jsonError, ⟨false, false, false, false, false, false⟩⟩
  else if !env.bgDl then
    ⟨500, .jsonError, ⟨false, false, false, false, false, false⟩⟩
  else if !env.reencodeMain then
    ⟨500, .jsonError, ⟨false, false, false, false, false, false⟩⟩
  else if !env.reencodeBg then
    ⟨500, .jsonError, ⟨false, false, false, false, false, false⟩⟩
  else if !env.copyMainOk then
    ⟨500, .jsonError, ⟨false, false, false, false, false, false⟩⟩
  else if !env.copyBgOk then
    -- the first copyFile succeeded, so the published main copy stays;
    -- the catch block removes only the four temporary files
    ⟨500, .jsonError, ⟨false, false, false, false, true, false⟩⟩
  else
    ⟨200, .urls (publicMainUrl ts) (publicBackgroundUrl ts),
      ⟨false, false, false, false, true, true⟩⟩

/-- Environment for the `/get-video-urls` handler of
`src/server-segment-two.js`: success flags of the stream/process operations
and the sizes `fs.statSync(..).size` reports for each produced file.  The
environment is per-request, so repeated attempts of a deterministic failing
operation see the same values. -/
structure SegTwoEnv where
  vOk : Bool
  aOk : Bool
  mergeOk : Bool
  vSize : Nat
  aSize : Nat
  mergedSize : Nat
  bgOk : Bool
  bgSize : Nat
  procMainOk : Bool
  mainReencSize : Nat
  procBgOk : Bool
  bgReencSize : Nat
  copyOk : Bool
deriving DecidableEq

/-- One attempt of the main download of `src/server-segment-two.js`
(lines 325-357): download the video stream, download the audio stream,
throw if either file is empty, merge, throw if the merged file is empty. -/
def mainDownloadAttempt (env : SegTwoEnv) : Except String Unit :=
  if !env.vOk then .error "video stream error"
  else if !env.aOk then .error "audio stream error"
  else if env.vSize = 0 then .error "Downloaded main video is empty"
  else if env.aSize = 0 then .error "Downloaded main audio is empty"
  else if !env.mergeOk then .error "merge error"
  else if env.mergedSize = 0 then .error "Merged main video is empty"
  else .ok ()

/-- One attempt of the background download of `src/server-segment-two.js`
(lines 361-367): download the video stream, throw if the file is empty. -/
def backgroundDownloadAttempt (env : SegTwoEnv) : Except String Unit :=
  if !env.bgOk then .error "video stream error"
  else if env.bgSize = 0 then .error "Downloaded background video is empty"
  else .ok ()

/-- Final HTTP status of the `/get-video-urls` handler of
`src/server-segment-two.js` (lines 291-447): both downloads run under
`retryOperation` (budget 3), then the two re-encodes, then the copies to
`videos/` and the 200 response.  Note that the re-encoded files are never
size-checked. -/
def segTwoGetVideoUrls (env : SegTwoEnv) : Nat :=
  match (retryOperation (fun _ => mainDownloadAttempt env) 3).1 with
  | .error _ => 500
  | .ok _ =>
    match (retryOperation (fun _ => backgroundDownloadAttempt env) 3).1 with
    | .error _ => 500
    | .ok _ =>
      if !env.procMainOk then 500
      else if !env.procBgOk then 500
      else if !env.copyOk then 500
      else 200

/-- A `/combine-two` request body.  The outer `Option` of the seconds
fields is presence in the JSON body; the inner `Option` is whether
`parseFloat` yields a number (`none` = `NaN`). -/
structure CombineRequest where
  mainUrl : Option String
  backgroundUrl : Option String
  startSeconds : Option (Option ℚ)
  endSeconds : Option (Option ℚ)
deriving DecidableEq

/-- JavaScript falsiness of an optional string field (`!mainUrl`):
missing or empty. -/
def falsyStr : Option String → Bool
  | none => true
  | some s => s.isEmpty

/-- `parseFloat` applied to a request field: an absent field is
`parseFloat(undefined) = NaN`. -/
def parseField : Option (Option ℚ) → Option ℚ
  | none => none
  | some none => none
  | some (some q) => some q

/-- What a `/combine-two` handler does with a request: reject it with
HTTP 400 and a JSON error, or start the download pipeline, interpolating
the given bounds into the first yt-dlp command. -/
inductive RouteAction where
  | badRequest (error : String)
  | download (startArg endArg : Option ℚ)
deriving DecidableEq

/-- `true` on the HTTP 400 branch. -/
def RouteAction.isBadRequest : RouteAction → Bool
  | .badRequest _ => true
  | .download _ _ => false

/-- Validation of `src/unnamed/part_000` (lines 24-42): reject when a URL is
falsy or a bound does not parse as a number, then reject when
`start >= end`; otherwise start the downloads. -/
def part000Action (r : CombineRequest) : RouteAction :=
  match parseField r.startSeconds, parseField r.endSeconds with
  | some s, some e =>
    if falsyStr r.mainUrl || falsyStr r.backgroundUrl then
      .badRequest "Missing or invalid required fields: mainUrl, backgroundUrl, startSeconds, endSeconds."
    else if s ≥ e then
      .badRequest "startSeconds must be less than endSeconds"
    else
      .download (some s) (some e)
  | _, _ =>
    .badRequest "Missing or invalid required fields: mainUrl, backgroundUrl, startSeconds, endSeconds."

/-- Validation of `src/server.js` (lines 41-45): only presence of the four
fields is checked (`startSeconds === undefined`); the raw values are then
interpolated into the yt-dlp command. -/
def serverJsAction (r : CombineRequest) : RouteAction :=
  if falsyStr r.mainUrl || falsyStr r.backgroundUrl
      || r.startSeconds.isNone || r.endSeconds.isNone then
    .badRequest "Missing required fields: mainUrl, backgroundUrl, startSeconds, and endSeconds."
  else
    .download (parseField r.startSeconds) (parseField r.endSeconds)

/-- The condition under which claim C8 says a `/combine-two` submission is
rejected (modelled from the spec wording): a source missing, a bound not
parsing as a number, or `startSeconds >= endSeconds`. -/
def c8ClaimRejects (r : CombineRequest) : Bool :=
  falsyStr r.mainUrl || falsyStr r.backgroundUrl ||
    match parseField r.startSeconds, parseField r.endSeconds with
    | some s, some e => decide (s ≥ e)
    | _, _ => true

/-- A yt-dlp `--download-sections "*FROM-TO"` window. -/
structure YtDlpSection where
  fromSec : ℚ
  toSec : ℚ
deriving DecidableEq

/-- An ffmpeg `setStartTime`/`duration` trim. -/
structure FfmpegTrim where
  startAt : ℚ
  duration : ℚ
deriving DecidableEq

/-- Main-segment section of `src/unnamed/part_001` (line 105):
`--download-sections "*${start}-${end}"`. -/
def part001MainSection (start endS : ℚ) : YtDlpSection :=
  ⟨start, endS⟩

/-- Background-segment section of `src/unnamed/part_001` (line 111):
`--download-sections "*0-${duration}"` with `duration = end - start`. -/
def part001BgSection (start endS : ℚ) : YtDlpSection :=
  ⟨0, endS - start⟩

/-- Main-segment trim of `src/server-segment-two.js` (lines 371-374):
`.setStartTime(start).duration(duration)`. -/
def segTwoMainTrim (start endS : ℚ) : FfmpegTrim :=
  ⟨start, endS - start⟩

/-- Background-segment trim of `src/server-segment-two.js`
(lines 394-397): `.setStartTime(0).duration(duration)`. -/
def segTwoBgTrim (start endS : ℚ) : FfmpegTrim :=
  ⟨0, endS - start⟩

/-- The absolute source interval a yt-dlp section covers. -/
def YtDlpSection.window (w : YtDlpSection) : ℚ × ℚ :=
  (w.fromSec, w.toSec)

/-- The absolute source interval an ffmpeg trim covers. -/
def FfmpegTrim.window (t : FfmpegTrim) : ℚ × ℚ :=
  (t.startAt, t.startAt + t.duration)

/-- Decimal decoding of a digit string; left inverse of `natToStr`, used to
prove that the timestamp rendering is injective. -/
def decDigits (l : List Char) : Nat :=
  l.foldl (fun acc c => acc * 10 + (c.toNat - 48)) 0

/-- The artifact paths `src/unnamed/part_001` generates for a request: they
are a function of the `Date.now()` stamp alone — nothing of the request
body enters the names. -/
def part001PathsFor (_r : CombineRequest) (ts : Nat) : List String :=
  part001ArtifactNames ts

/-- Example credential behaviour: cookies 10 and 20 are rejected with an
HTTP 403 error, cookie 30 works. -/
def behaveAuthEx : Nat → Option (String × String) :=
  fun c => if c = 30 then none else some ("HTTP Error 403: Forbidden", "")

/-- Example credential behaviour: cookie 1 fails with a non-cookie error. -/
def behaveFatalEx : Nat → Option (String × String) :=
  fun c => if c = 1 then some ("network timeout", "") else none

/-- Example operation: fails on attempts 1 and 2, succeeds on attempt 3. -/
def opEx : Nat → Except String Nat :=
  fun i => if i ≤ 2 then .error "boom" else .ok 7

/-- Environment in which every pipeline step of `/get-video-urls`
succeeds. -/
def envAllOk : GetVideoUrlsEnv :=
  ⟨true, true, true, true, true, true⟩

/-- Same as `envAllOk` except that the background download fails. -/
def envBgFail : GetVideoUrlsEnv :=
  ⟨true, false, true, true, true, true⟩

/-- `src/server-segment-two.js` environment in which every operation
succeeds and every downloaded file is non-empty, but both re-encoded
outputs come out zero-byte. -/
def envReencZero : SegTwoEnv :=
  ⟨true, true, true, 5, 5, 5, true, 5, true, 0, true, 0, true⟩

/-- `src/server-segment-two.js` environment in which the main video stream
downloads "successfully" but produces a zero-byte file. -/
def envZeroVideo : SegTwoEnv :=
  ⟨true, true, true, 0, 5, 5, true, 5, true, 5, true, 5, true⟩

/-- A request with `startSeconds = 50`, `endSeconds = 40` (start after
end). -/
def req50_40 : CombineRequest :=
  ⟨some "https://youtu.be/aaaaaaaaaaa", some "https://youtu.be/bbbbbbbbbbb",
    some (some 50), some (some 40)⟩

/-- A well-formed request, distinct from `reqB`. -/
def reqA : CombineRequest :=
  ⟨some "https://youtu.be/aaaaaaaaaaa", some "https://youtu.be/bbbbbbbbbbb",
    some (some 0), some (some 10)⟩

/-- A second well-formed request, distinct from `reqA`. -/
def reqB : CombineRequest :=
  ⟨some "https://youtu.be/ccccccccccc", some "https://youtu.be/ddddddddddd",
    some (some 5), some (some 15)⟩

theorem hasSubstr_iff_exists (hay needle : List Char) :
    hasSubstr hay needle = true ↔ ∃ pre suf, hay = pre ++ (needle ++ suf) := by
  induction hay with
  | nil =>
    rw [hasSubstr]
    simp only [Bool.or_false]
    rw [List.isPrefixOf_iff_prefix]
    constructor
    · rintro ⟨t, ht⟩
      refine ⟨[], t, ?_⟩
      simp [ht]
    · rintro ⟨pre, suf, h⟩
      have h' : pre ++ (needle ++ suf) = [] := h.symm
      simp only [List.append_eq_nil] at h'
      refine ⟨[], ?_⟩
      simp [h'.2.1]
  | cons h t ih =>
    rw [hasSubstr]
    rw [Bool.or_eq_true, List.isPrefixOf_iff_prefix, ih]
    constructor
    · rintro (⟨tail, htail⟩ | ⟨pre, suf, rfl⟩)
      · exact ⟨[], tail, by simp [← htail]⟩
      · exact ⟨h :: pre, suf, by simp⟩
    · rintro ⟨pre, suf, heq⟩
      cases pre with
      | nil =>
        left
        refine ⟨suf, ?_⟩
        simpa using heq.symm
      | cons p ps =>
        right
        simp only [List.cons_append, List.cons.injEq] at heq
        exact ⟨ps, suf, heq.2⟩

theorem hasSubstr_trans {hay n₁ n₂ : List Char}
    (h1 : hasSubstr hay n₁ = true) (h2 : hasSubstr n₁ n₂ = true) :
    hasSubstr hay n₂ = true := by
  rw [hasSubstr_iff_exists] at h1 h2 ⊢
  obtain ⟨p1, s1, rfl⟩ := h1
  obtain ⟨p2, s2, rfl⟩ := h2
  exact ⟨p1 ++ p2, s2 ++ s1, by simp⟩

theorem attempted_subset {κ : Type} (behave : κ → Option (String × String)) :
    ∀ pool : List κ, ∀ x ∈ attempted behave pool, x ∈ pool := by
  intro pool
  induction pool with
  | nil => simp [attempted]
  | cons c rest ih =>
    intro x hx
    rw [attempted] at hx
    cases hb : behave c with
    | none =>
      rw [hb] at hx
      simp at hx
      simp [hx]
    | some ms =>
      obtain ⟨m, s⟩ := ms
      rw [hb] at hx
      by_cases hc : isCookieError m s
      · simp [hc] at hx
        rcases hx with rfl | hx
        · simp
        · exact List.mem_cons_of_mem _ (ih x hx)
      · simp [hc] at hx
        simp [hx]

theorem runRot_all_auth {κ : Type} (behave : κ → Option (String × String)) :
    ∀ pool : List κ, (∀ c ∈ pool, isAuthFailure (behave c) = true) →
      runWithRotatingCookies behave pool = .noValid pool := by
  intro pool
  induction pool with
  | nil => intro _; rfl
  | cons c rest ih =>
    intro hall
    have hc := hall c (by simp)
    cases hb : behave c with
    | none =>
      rw [hb] at hc
      simp [isAuthFailure] at hc
    | some ms =>
      obtain ⟨m, s⟩ := ms
      rw [hb] at hc
      have hck : isCookieError m s = true := by simpa [isAuthFailure] using hc
      have ihh := ih (fun x hx => hall x (List.mem_cons_of_mem _ hx))
      simp [runWithRotatingCookies, hb, hck, ihh]

theorem runRot_scenario {κ : Type} (behave : κ → Option (String × String)) :
    ∀ (pre : List κ) (cN : κ), (∀ c ∈ pre, isAuthFailure (behave c) = true) →
      behave cN = none →
      runWithRotatingCookies behave (pre ++ [cN]) = .ok cN pre := by
  intro pre
  induction pre with
  | nil =>
    intro cN _ hN
    simp [runWithRotatingCookies, hN]
  | cons c rest ih =>
    intro cN hall hN
    have hc := hall c (by simp)
    cases hb : behave c with
    | none =>
      rw [hb] at hc
      simp [isAuthFailure] at hc
    | some ms =>
      obtain ⟨m, s⟩ := ms
      rw [hb] at hc
      have hck : isCookieError m s = true := by simpa [isAuthFailure] using hc
      have ihh := ih cN (fun x hx => hall x (List.mem_cons_of_mem _ hx)) hN
      simp [runWithRotatingCookies, hb, hck, ihh]

theorem retryFrom_count_le {E A : Type} (op : Nat → Except E A) :
    ∀ (r attempt : Nat) (last : Option E), (retryFrom op attempt r last).2 ≤ r := by
  intro r
  induction r with
  | zero => intro attempt last; simp [retryFrom]
  | succ r ih =>
    intro attempt last
    cases h : op attempt with
    | ok a => simp [retryFrom, h]
    | error e =>
      simp only [retryFrom, h]
      exact Nat.succ_le_succ (ih (attempt + 1) (some e))

theorem retryFrom_all_fail {E A : Type} (op : Nat → Except E A) (errs : Nat → E) :
    ∀ (r attempt : Nat) (last : Option E), 1 ≤ r →
      (∀ i, attempt ≤ i → i < attempt + r → op i = .error (errs i)) →
      retryFrom op attempt r last = (.error (some (errs (attempt + r - 1))), r) := by
  intro r
  induction r with
  | zero => intro attempt last h; omega
  | succ r ih =>
    intro attempt last _ hall
    have hatt : op attempt = .error (errs attempt) := hall attempt le_rfl (by omega)
    by_cases hr : r = 0
    · subst hr
      simp [retryFrom, hatt]
    · have h1r : 1 ≤ r := by omega
      have ihh := ih (attempt + 1) (some (errs attempt)) h1r
        (fun i hi1 hi2 => hall i (by omega) (by omega))
      have harith : attempt + 1 + r - 1 = attempt + (r + 1) - 1 := by omega
      simp only [retryFrom, hatt, ihh, harith]

theorem digitChar_toNat : ∀ d, d < 10 → (Nat.digitChar d).toNat = 48 + d := by
  decide

theorem digitChar_isDigit : ∀ d, d < 10 → (Nat.digitChar d).isDigit = true := by
  decide

theorem decDigits_append_digit (l : List Char) (c : Char) :
    decDigits (l ++ [c]) = decDigits l * 10 + (c.toNat - 48) := by
  simp [decDigits, List.foldl_append]

theorem natToStrAux_decode : ∀ fuel n, n < fuel →
    decDigits (natToStrAux fuel n) = n := by
  intro fuel
  induction fuel with
  | zero => intro n h; omega
  | succ fuel ih =>
    intro n h
    by_cases h10 : n < 10
    · simp only [natToStrAux, h10, if_true, decDigits, List.foldl]
      have := digitChar_toNat n h10
      omega
    · have hdiv : n / 10 < fuel := by
        have hlt : n / 10 < n := Nat.div_lt_self (by omega) (by omega)
        omega
      have hstep : natToStrAux (fuel + 1) n
          = natToStrAux fuel (n / 10) ++ [Nat.digitChar (n % 10)] := by
        rw [natToStrAux]
        simp [h10]
      rw [hstep, decDigits_append_digit]
      have ihh := ih (n / 10) hdiv
      rw [ihh]
      have hm := digitChar_toNat (n % 10) (Nat.mod_lt _ (by omega))
      have hdm := Nat.div_add_mod n 10
      omega

theorem natToStr_inj : ∀ a b : Nat, natToStr a = natToStr b → a = b := by
  intro a b h
  have hd : natToStrAux (a + 1) a = natToStrAux (b + 1) b :=
    congrArg String.data h
  have hdec := congrArg decDigits hd
  rwa [natToStrAux_decode (a + 1) a (by omega),
       natToStrAux_decode (b + 1) b (by omega)] at hdec

theorem natToStrAux_digits : ∀ fuel n c, c ∈ natToStrAux fuel n →
    c.isDigit = true := by
  intro fuel
  induction fuel with
  | zero => intro n c hc; simp [natToStrAux] at hc
  | succ fuel ih =>
    intro n c hc
    by_cases h10 : n < 10
    · simp only [natToStrAux, h10, if_true, List.mem_singleton] at hc
      subst hc
      exact digitChar_isDigit n h10
    · rw [natToStrAux] at hc
      simp only [h10, if_false, List.mem_append, List.mem_singleton] at hc
      rcases hc with hc | hc
      · exact ih _ _ hc
      · subst hc
        exact digitChar_isDigit _ (Nat.mod_lt _ (by omega))

theorem natToStrAux_ne_nil : ∀ fuel n, natToStrAux (fuel + 1) n ≠ [] := by
  intro fuel n
  rw [natToStrAux]
  by_cases h10 : n < 10 <;> simp [h10]

theorem natToStr_data_cons : ∀ n : Nat, ∃ c cs,
    (natToStr n).data = c :: cs ∧ c.isDigit = true := by
  intro n
  cases hx : natToStrAux (n + 1) n with
  | nil => exact absurd hx (natToStrAux_ne_nil n n)
  | cons c cs =>
    refine ⟨c, cs, hx, ?_⟩
    exact natToStrAux_digits (n + 1) n c (by rw [hx]; simp)

theorem strDataAppend : ∀ a b : String, (a ++ b).data = a.data ++ b.data := by
  intro a b
  cases a
  cases b
  rfl

theorem name_ne_of_data_ne {a b : String} (h : a.data ≠ b.data) : a ≠ b :=
  fun he => h (congrArg String.data he)

theorem mainSegmentName_data (ts : Nat) :
    (mainSegmentName ts).data
      = "main-".data ++ ((natToStr ts).data ++ ".mp4".data) := by
  rw [mainSegmentName, strDataAppend, strDataAppend, List.append_assoc]

theorem backgroundSegmentName_data (ts : Nat) :
    (backgroundSegmentName ts).data
      = "background-".data ++ ((natToStr ts).data ++ ".mp4".data) := by
  rw [backgroundSegmentName, strDataAppend, strDataAppend, List.append_assoc]

theorem mainReencodedName_data (ts : Nat) :
    (mainReencodedName ts).data
      = "main-reencoded-".data ++ ((natToStr ts).data ++ ".mp4".data) := by
  rw [mainReencodedName, strDataAppend, strDataAppend, List.append_assoc]

theorem backgroundReencodedName_data (ts : Nat) :
    (backgroundReencodedName ts).data
      = "background-reencoded-".data ++ ((natToStr ts).data ++ ".mp4".data) := by
  rw [backgroundReencodedName, strDataAppend, strDataAppend, List.append_assoc]

theorem tmpl_ne (p sfx : List Char) {t1 t2 : Nat} (hne : t1 ≠ t2) :
    p ++ ((natToStr t1).data ++ sfx) ≠ p ++ ((natToStr t2).data ++ sfx) := by
  intro h
  have h1 := List.append_cancel_left h
  have h2 := List.append_cancel_right h1
  exact hne (natToStr_inj t1 t2 (congrArg String.mk h2))

theorem mainSeg_ne_bgSeg (t1 t2 : Nat) :
    mainSegmentName t1 ≠ backgroundSegmentName t2 := by
  apply name_ne_of_data_ne
  rw [mainSegmentName_data, backgroundSegmentName_data]
  have hm : "main-".data = ['m', 'a', 'i', 'n', '-'] := rfl
  have hb : "background-".data
      = ['b', 'a', 'c', 'k', 'g', 'r', 'o', 'u', 'n', 'd', '-'] := rfl
  rw [hm, hb]
  intro h
  simp only [List.cons_append, List.nil_append, List.cons.injEq] at h
  exact absurd h.1 (by decide)

theorem mainSeg_ne_bgReenc (t1 t2 : Nat) :
    mainSegmentName t1 ≠ backgroundReencodedName t2 := by
  apply name_ne_of_data_ne
  rw [mainSegmentName_data, backgroundReencodedName_data]
  have hm : "main-".data = ['m', 'a', 'i', 'n', '-'] := rfl
  have hb : "background-reencoded-".data
      = 'b' :: "ackground-reencoded-".data := rfl
  rw [hm, hb]
  intro h
  simp only [List.cons_append, List.nil_append, List.cons.injEq] at h
  exact absurd h.1 (by decide)

theorem bgSeg_ne_mainReenc (t1 t2 : Nat) :
    backgroundSegmentName t1 ≠ mainReencodedName t2 := by
  apply name_ne_of_data_ne
  rw [backgroundSegmentName_data, mainReencodedName_data]
  have hb : "background-".data = 'b' :: "ackground-".data := rfl
  have hm : "main-reencoded-".data = 'm' :: "ain-reencoded-".data := rfl
  rw [hm, hb]
  intro h
  simp only [List.cons_append, List.nil_append, List.cons.injEq] at h
  exact absurd h.1 (by decide)

theorem mainReenc_ne_bgReenc (t1 t2 : Nat) :
    mainReencodedName t1 ≠ backgroundReencodedName t2 := by
  apply name_ne_of_data_ne
  rw [mainReencodedName_data, backgroundReencodedName_data]
  have hm : "main-reencoded-".data = 'm' :: "ain-reencoded-".data := rfl
  have hb : "background-reencoded-".data
      = 'b' :: "ackground-reencoded-".data := rfl
  rw [hm, hb]
  intro h
  simp only [List.cons_append, List.nil_append, List.cons.injEq] at h
  exact absurd h.1 (by decide)

theorem mainSeg_ne_mainReenc (t1 t2 : Nat) :
    mainSegmentName t1 ≠ mainReencodedName t2 := by
  apply name_ne_of_data_ne
  rw [mainSegmentName_data, mainReencodedName_data]
  have hsplit : "main-reencoded-".data = "main-".data ++ "reencoded-".data := rfl
  rw [hsplit, List.append_assoc]
  intro h
  have h1 := List.append_cancel_left h
  obtain ⟨c, cs, hdata, hdig⟩ := natToStr_data_cons t1
  rw [hdata] at h1
  have hr : "reencoded-".data = 'r' :: "eencoded-".data := rfl
  rw [hr] at h1
  simp only [List.cons_append, List.cons.injEq] at h1
  have hc : c = 'r' := h1.1
  rw [hc] at hdig
  exact absurd hdig (by decide)

theorem bgSeg_ne_bgReenc (t1 t2 : Nat) :
    backgroundSegmentName t1 ≠ backgroundReencodedName t2 := by
  apply name_ne_of_data_ne
  rw [backgroundSegmentName_data, backgroundReencodedName_data]
  have hsplit : "background-reencoded-".data
      = "background-".data ++ "reencoded-".data := rfl
  rw [hsplit, List.append_assoc]
  intro h
  have h1 := List.append_cancel_left h
  obtain ⟨c, cs, hdata, hdig⟩ := natToStr_data_cons t1
  rw [hdata] at h1
  have hr : "reencoded-".data = 'r' :: "eencoded-".data := rfl
  rw [hr] at h1
  simp only [List.cons_append, List.cons.injEq] at h1
  have hc : c = 'r' := h1.1
  rw [hc] at hdig
  exact absurd hdig (by decide)

theorem mainSegmentName_ne (t1 t2 : Nat) (h : t1 ≠ t2) :
    mainSegmentName t1 ≠ mainSegmentName t2 := by
  apply name_ne_of_data_ne
  rw [mainSegmentName_data, mainSegmentName_data]
  exact tmpl_ne _ _ h

theorem backgroundSegmentName_ne (t1 t2 : Nat) (h : t1 ≠ t2) :
    backgroundSegmentName t1 ≠ backgroundSegmentName t2 := by
  apply name_ne_of_data_ne
  rw [backgroundSegmentName_data, backgroundSegmentName_data]
  exact tmpl_ne _ _ h

theorem mainReencodedName_ne (t1 t2 : Nat) (h : t1 ≠ t2) :
    mainReencodedName t1 ≠ mainReencodedName t2 := by
  apply name_ne_of_data_ne
  rw [mainReencodedName_data, mainReencodedName_data]
  exact tmpl_ne _ _ h

theorem backgroundReencodedName_ne (t1 t2 : Nat) (h : t1 ≠ t2) :
    backgroundReencodedName t1 ≠ backgroundReencodedName t2 := by
  apply name_ne_of_data_ne
  rw [backgroundReencodedName_data, backgroundReencodedName_data]
  exact tmpl_ne _ _ h

/-- C2: with a pool of cookie files whose first elements all fail with
authentication-class errors and whose last element succeeds,
`runWithRotatingCookies` succeeds using the last credential and deletes
exactly the failing ones; since `getCookieFiles` re-reads the directory, a
deleted cookie file is absent from every later pool and hence never
attempted again; and if every credential fails with an
authentication-class error the loop throws the no-valid-cookies error
after deleting the whole pool. -/
theorem rotatingCookiesEviction :
    (∀ (pre : List Nat) (cN : Nat) (behave : Nat → Option (String × String)),
        (∀ c ∈ pre, isAuthFailure (behave c) = true) → behave cN = none →
        runWithRotatingCookies behave (pre ++ [cN]) = .ok cN pre
        ∧ ∀ (behave2 : Nat → Option (String × String)) (d : Nat), d ∈ pre →
            d ∉ attempted behave2 (filesAfter (pre ++ [cN]) pre))
    ∧ (∀ (pool : List Nat) (behave : Nat → Option (String × String)),
        (∀ c ∈ pool, isAuthFailure (behave c) = true) →
        runWithRotatingCookies behave pool = .noValid pool) := by
  constructor
  · intro pre cN behave hall hN
    refine ⟨runRot_scenario behave pre cN hall hN, ?_⟩
    intro behave2 d hd hmem
    have hsub := attempted_subset behave2 _ d hmem
    rw [filesAfter] at hsub
    have hkeep := List.of_mem_filter hsub
    simp at hkeep
    exact hkeep hd
  · intro pool behave hall
    exact runRot_all_auth behave pool hall

theorem rotatingCookiesEvictionWitness :
    runWithRotatingCookies behaveAuthEx ([10, 20] ++ [30]) = .ok 30 [10, 20]
    ∧ 10 ∉ attempted behaveAuthEx (filesAfter ([10, 20] ++ [30]) [10, 20]) := by
  have h := rotatingCookiesEviction.1 [10, 20] 30 behaveAuthEx (by decide) rfl
  exact ⟨h.1, h.2 behaveAuthEx 10 (by decide)⟩

/-- C3: the retry wrapper invokes the operation at most `maxRetries` times;
an operation failing on attempts 1 and 2 and succeeding on attempt 3 makes
`retryOperation _ 3` return that success after exactly 3 invocations; and
when every attempt in the budget fails, the error of the last attempt is
rethrown after exactly `maxRetries` invocations. -/
theorem retryOperationSpec :
    (∀ (A : Type) (op : Nat → Except String A) (n : Nat),
        (retryOperation op n).2 ≤ n)
    ∧ (∀ (A : Type) (op : Nat → Except String A) (a : A) (e1 e2 : String),
        op 1 = .error e1 → op 2 = .error e2 → op 3 = .ok a →
        retryOperation op 3 = (.ok a, 3))
    ∧ (∀ (A : Type) (op : Nat → Except String A) (errs : Nat → String) (n : Nat),
        1 ≤ n → (∀ i, 1 ≤ i → i ≤ n → op i = .error (errs i)) →
        retryOperation op n = (.error (some (errs n)), n)) := by
  refine ⟨?_, ?_, ?_⟩
  · intro A op n
    exact retryFrom_count_le op n 1 none
  · intro A op a e1 e2 h1 h2 h3
    simp [retryOperation, retryFrom, h1, h2, h3]
  · intro A op errs n h1 hall
    have h := retryFrom_all_fail op errs n 1 none h1
      (fun i hi1 hi2 => hall i hi1 (by omega))
    have harith : 1 + n - 1 = n := by omega
    rw [harith] at h
    exact h

theorem retryOperationSpecWitness :
    retryOperation opEx 3 = (.ok 7, 3) :=
  retryOperationSpec.2.1 Nat opEx 7 "boom" "boom" rfl rfl rfl

/-- C4 counterexample: the claimed jitter bound `j ≤ 1` fails — with
`Math.random()` returning `3/4` (a legal value, `0 ≤ 3/4 < 1`), the first
backoff delay of `retryOperation` with its default `initialDelay = 2000`
is `2500`, which cannot be written as `2000 * 2 ^ 0 * j` with
`1/2 ≤ j ≤ 1`. -/
theorem backoffDelayExceedsCap :
    0 ≤ (3 / 4 : ℚ) ∧ (3 / 4 : ℚ) < 1 ∧
    ¬ ∃ j : ℚ, 1 / 2 ≤ j ∧ j ≤ 1
        ∧ backoffDelay 2000 1 (3 / 4) = 2000 * 2 ^ (1 - 1) * j := by
  refine ⟨by norm_num, by norm_num, ?_⟩
  rintro ⟨j, _, h2, h3⟩
  rw [backoffDelay] at h3
  norm_num at h3
  linarith

/-- C4 (amended): the backoff delay before the attempt after failed attempt
`a` equals `initialDelay * 2 ^ (a - 1) * j` where the jitter factor
`j = 1/2 + Math.random()` satisfies `1/2 ≤ j < 3/2` (not `j ≤ 1`). -/
theorem backoffDelayBounds :
    ∀ (d r : ℚ) (a : Nat), 0 ≤ r → r < 1 →
      backoffDelay d a r = d * 2 ^ (a - 1) * (1 / 2 + r)
      ∧ 1 / 2 ≤ 1 / 2 + r ∧ 1 / 2 + r < 3 / 2 := by
  intro d r a h0 h1
  exact ⟨rfl, by linarith, by linarith⟩

theorem backoffDelayBoundsWitness :
    backoffDelay 2000 1 (3 / 4) = 2000 * 2 ^ (1 - 1) * (1 / 2 + 3 / 4)
    ∧ 1 / 2 ≤ 1 / 2 + (3 / 4 : ℚ) ∧ 1 / 2 + (3 / 4 : ℚ) < 3 / 2 :=
  backoffDelayBounds 2000 (3 / 4) 1 (by norm_num) (by norm_num)

/-- C5: an error is classified as authentication-class exactly when the
lower-cased concatenation of message and stderr contains one of the four
indicator substrings (the fifth source indicator,
`unable to load cookies`, is subsumed by `cookie`); and a non-cookie error
on the first credential aborts the rotation loop at once, deleting nothing
and attempting no further credential. -/
theorem cookieErrorClassification :
    (∀ message stderrText : String,
        isCookieError message stderrText = true ↔
          (hasSubstr (lowerConcat message stderrText) "cookie".data
            || hasSubstr (lowerConcat message stderrText) "certificate".data
            || hasSubstr (lowerConcat message stderrText) "403".data
            || hasSubstr (lowerConcat message stderrText) "forbidden".data)
            = true)
    ∧ (∀ (c : Nat) (rest : List Nat)
          (behave : Nat → Option (String × String)) (m s : String),
        behave c = some (m, s) → isCookieError m s = false →
        runWithRotatingCookies behave (c :: rest) = .fatal c m s []) := by
  constructor
  · intro m s
    rw [isCookieError]
    simp only [Bool.or_eq_true]
    constructor
    · rintro ((((h | h) | h) | h) | h)
      · exact Or.inl (Or.inl (Or.inl (hasSubstr_trans h (by decide))))
      · exact Or.inl (Or.inl (Or.inl h))
      · exact Or.inl (Or.inl (Or.inr h))
      · exact Or.inl (Or.inr h)
      · exact Or.inr h
    · rintro (((h | h) | h) | h)
      · exact Or.inl (Or.inl (Or.inl (Or.inr h)))
      · exact Or.inl (Or.inl (Or.inr h))
      · exact Or.inl (Or.inr h)
      · exact Or.inr h
  · intro c rest behave m s hb hck
    simp [runWithRotatingCookies, hb, hck]

theorem cookieErrorClassificationWitness :
    runWithRotatingCookies behaveFatalEx [1, 2] = .fatal 1 "network timeout" "" [] :=
  cookieErrorClassification.2 1 [2] behaveFatalEx "network timeout" "" rfl
    (by decide)

/-- C1 counterexample: in the `/combine-two` handler of
`src/unnamed/part_000`, a request whose main download succeeds and whose
background download fails is answered with HTTP 500 while the main segment
file is still on disk — an intermediate artifact of a failed request
survives. -/
theorem combineTwoLeavesMainSegment :
    (combineTwoPart000 ⟨true, false, true, true⟩).status = 500
    ∧ (combineTwoPart000 ⟨true, false, true, true⟩).disk.mainSegment = true :=
  ⟨rfl, rfl⟩

/-- C1 (amended): in the `/get-video-urls` handler of
`src/unnamed/part_001` the cleanup invariant does hold — whatever
combination of pipeline steps fails, none of the four intermediate
artifacts (main segment, background segment, the two re-encoded files)
remains on disk when the request ends. -/
theorem part001CleanupInvariant :
    ∀ (ts : Nat) (env : GetVideoUrlsEnv),
      (getVideoUrlsPart001 ts env).disk.mainSegment = false
      ∧ (getVideoUrlsPart001 ts env).disk.backgroundSegment = false
      ∧ (getVideoUrlsPart001 ts env).disk.mainReencoded = false
      ∧ (getVideoUrlsPart001 ts env).disk.backgroundReencoded = false := by
  intro ts env
  obtain ⟨a, b, c, d, e, f⟩ := env
  cases a <;> cases b <;> cases c <;> cases d <;> cases e <;> cases f <;>
    simp [getVideoUrlsPart001]

/-- C6 counterexample: the `/get-video-urls` handler is synchronous — its
response is a function of the pipeline outcome.  Two requests that differ
only in whether the background download succeeds get different statuses
(200 vs 500), so the handler held the submitting request open through the
download; the success response carries the published video URLs, not a job
id. -/
theorem getVideoUrlsBlocksOnPipeline :
    envBgFail = { envAllOk with bgDl := false }
    ∧ (getVideoUrlsPart001 99 envAllOk).status = 200
    ∧ (getVideoUrlsPart001 99 envBgFail).status = 500
    ∧ (getVideoUrlsPart001 99 envAllOk).body
        = .urls (publicMainUrl 99) (publicBackgroundUrl 99) :=
  ⟨rfl, rfl, rfl, rfl⟩

/-- C6 (amended): the handler answers 200 exactly when every pipeline step
(both downloads, both re-encodes, both publishes) succeeded, i.e. the
submitting request is held open until the full pipeline has finished and
its outcome is reported in that same response; no job id or separate
status query exists. -/
theorem getVideoUrlsStatusIffPipeline :
    ∀ (ts : Nat) (env : GetVideoUrlsEnv),
      (getVideoUrlsPart001 ts env).status = 200 ↔
        (env.mainDl && env.bgDl && env.reencodeMain && env.reencodeBg
          && env.copyMainOk && env.copyBgOk) = true := by
  intro ts env
  obtain ⟨a, b, c, d, e, f⟩ := env
  cases a <;> cases b <;> cases c <;> cases d <;> cases e <;> cases f <;>
    simp [getVideoUrlsPart001]

/-- C7 counterexample: in `src/server-segment-two.js`, an environment in
which every download produces non-empty files but the main re-encode
yields a zero-byte output is still answered with HTTP 200 — the declared
outputs of the composition step are not verified non-empty before the
result is reported. -/
theorem segTwoPublishesEmptyReencode :
    segTwoGetVideoUrls envReencZero = 200
    ∧ envReencZero.mainReencSize = 0
    ∧ envReencZero.bgReencSize = 0 :=
  ⟨rfl, rfl, rfl⟩

/-- C7 (amended): the download attempts of `src/server-segment-two.js` do
treat a zero-byte destination file as a failure of that attempt, but the
outputs of the composition (re-encode) step are never size-checked: the
handler result is independent of the re-encoded file sizes. -/
theorem segTwoSizeChecks :
    (∀ env : SegTwoEnv, env.vOk = true → env.aOk = true → env.vSize = 0 →
        mainDownloadAttempt env = .error "Downloaded main video is empty")
    ∧ (∀ env : SegTwoEnv, env.bgOk = true → env.bgSize = 0 →
        backgroundDownloadAttempt env = .error "Downloaded background video is empty")
    ∧ (∀ (env : SegTwoEnv) (m b : Nat),
        segTwoGetVideoUrls { env with mainReencSize := m, bgReencSize := b }
          = segTwoGetVideoUrls env) := by
  refine ⟨?_, ?_, ?_⟩
  · intro env h1 h2 h3
    simp [mainDownloadAttempt, h1, h2, h3]
  · intro env h1 h2
    simp [backgroundDownloadAttempt, h1, h2]
  · intro env m b
    obtain ⟨v, a, mg, vs, as', ms, bo, bs, pm, mrs, pb, brs, co⟩ := env
    rfl

theorem segTwoSizeChecksWitness :
    mainDownloadAttempt envZeroVideo = .error "Downloaded main video is empty" :=
  segTwoSizeChecks.1 envZeroVideo rfl rfl rfl

/-- C8 counterexample: `src/server.js` checks only the presence of the four
fields, so the request with `startSeconds = 50`, `endSeconds = 40` is not
rejected — the handler starts the main download with those bounds.  (The
`src/unnamed/part_000` variant does reject it with the 400 error.) -/
theorem serverJsAcceptsInvertedRange :
    serverJsAction req50_40 = .download (some 50) (some 40)
    ∧ (serverJsAction req50_40).isBadRequest = false
    ∧ part000Action req50_40
        = .badRequest "startSeconds must be less than endSeconds" := by
  refine ⟨by decide, by decide, by decide⟩

/-- C8 (amended): the `/combine-two` handler of `src/unnamed/part_000`
rejects with HTTP 400 (starting no download) exactly when a source is
missing/empty, a bound does not parse as a number, or
`startSeconds >= endSeconds`; the `src/server.js` variant rejects exactly
when a field is absent, performing no numeric or ordering validation. -/
theorem validationCharacterization :
    (∀ r : CombineRequest,
        (part000Action r).isBadRequest = c8ClaimRejects r)
    ∧ (∀ r : CombineRequest,
        (serverJsAction r).isBadRequest
          = (falsyStr r.mainUrl || falsyStr r.backgroundUrl
              || r.startSeconds.isNone || r.endSeconds.isNone)) := by
  constructor
  · intro r
    rcases hs : parseField r.startSeconds with _ | s <;>
      rcases he : parseField r.endSeconds with _ | e <;>
        simp only [part000Action, c8ClaimRejects, hs, he]
    · by_cases h1 : falsyStr r.mainUrl <;> by_cases h2 : falsyStr r.backgroundUrl <;>
        simp [h1, h2, RouteAction.isBadRequest]
    · by_cases h1 : falsyStr r.mainUrl <;> by_cases h2 : falsyStr r.backgroundUrl <;>
        simp [h1, h2, RouteAction.isBadRequest]
    · by_cases h1 : falsyStr r.mainUrl <;> by_cases h2 : falsyStr r.backgroundUrl <;>
        simp [h1, h2, RouteAction.isBadRequest]
    · by_cases h1 : falsyStr r.mainUrl <;> by_cases h2 : falsyStr r.backgroundUrl <;>
        by_cases h3 : s ≥ e <;>
          simp [h1, h2, h3, RouteAction.isBadRequest]
  · intro r
    cases hcond : (falsyStr r.mainUrl || falsyStr r.backgroundUrl
        || r.startSeconds.isNone || r.endSeconds.isNone) with
    | true => simp [serverJsAction, hcond, RouteAction.isBadRequest]
    | false => simp [serverJsAction, hcond, RouteAction.isBadRequest]

/-- C9 counterexample: the artifact paths of `src/unnamed/part_001` are a
function of `Date.now()` alone, so two distinct requests processed in the
same millisecond receive identical path lists — which are not disjoint. -/
theorem sameMillisecondPathsCollide :
    reqA ≠ reqB
    ∧ part001PathsFor reqA 1700000000000 = part001PathsFor reqB 1700000000000
    ∧ ¬ List.Disjoint (part001PathsFor reqA 1700000000000)
        (part001PathsFor reqB 1700000000000) := by
  refine ⟨by decide, rfl, ?_⟩
  intro hdisj
  exact hdisj (a := mainSegmentName 1700000000000)
    (by simp [part001PathsFor, part001ArtifactNames])
    (by simp [part001PathsFor, part001ArtifactNames])

/-- C9 (amended): per timestamp the four artifact names are pairwise
distinct, and requests stamped with different `Date.now()` values get
disjoint artifact-path sets; uniqueness holds only across distinct
timestamps, not across concurrent same-millisecond requests. -/
theorem part001ArtifactNamesUnique :
    (∀ ts1 ts2 : Nat, ts1 ≠ ts2 →
        List.Disjoint (part001ArtifactNames ts1) (part001ArtifactNames ts2))
    ∧ ∀ ts : Nat, (part001ArtifactNames ts).Nodup := by
  constructor
  · intro ts1 ts2 hne a ha1 ha2
    simp only [part001ArtifactNames, List.mem_cons, List.mem_singleton,
      List.not_mem_nil, or_false] at ha1 ha2
    rcases ha1 with rfl | rfl | rfl | rfl
    · rcases ha2 with h | h | h | h
      · exact mainSegmentName_ne ts1 ts2 hne h
      · exact mainSeg_ne_bgSeg ts1 ts2 h
      · exact mainSeg_ne_mainReenc ts1 ts2 h
      · exact mainSeg_ne_bgReenc ts1 ts2 h
    · rcases ha2 with h | h | h | h
      · exact mainSeg_ne_bgSeg ts2 ts1 h.symm
      · exact backgroundSegmentName_ne ts1 ts2 hne h
      · exact bgSeg_ne_mainReenc ts1 ts2 h
      · exact bgSeg_ne_bgReenc ts1 ts2 h
    · rcases ha2 with h | h | h | h
      · exact mainSeg_ne_mainReenc ts2 ts1 h.symm
      · exact bgSeg_ne_mainReenc ts2 ts1 h.symm
      · exact mainReencodedName_ne ts1 ts2 hne h
      · exact mainReenc_ne_bgReenc ts1 ts2 h
    · rcases ha2 with h | h | h | h
      · exact mainSeg_ne_bgReenc ts2 ts1 h.symm
      · exact bgSeg_ne_bgReenc ts2 ts1 h.symm
      · exact mainReenc_ne_bgReenc ts2 ts1 h.symm
      · exact backgroundReencodedName_ne ts1 ts2 hne h
  · intro ts
    simp only [part001ArtifactNames, List.nodup_cons, List.mem_cons,
      List.mem_singleton, List.not_mem_nil, or_false, List.nodup_nil, and_true]
    refine ⟨?_, ?_, ?_⟩
    · rintro (h | h | h)
      · exact mainSeg_ne_bgSeg ts ts h
      · exact mainSeg_ne_mainReenc ts ts h
      · exact mainSeg_ne_bgReenc ts ts h
    · rintro (h | h)
      · exact bgSeg_ne_mainReenc ts ts h
      · exact bgSeg_ne_bgReenc ts ts h
    · exact ⟨mainReenc_ne_bgReenc ts ts, not_false⟩

theorem part001ArtifactNamesUniqueWitness :
    List.Disjoint (part001ArtifactNames 1) (part001ArtifactNames 2) :=
  part001ArtifactNamesUnique.1 1 2 (by decide)

/-- C10: for a valid request (`start < end`), both `src/unnamed/part_001`
and `src/server-segment-two.js` cut the main segment to the absolute
window `[start, end]` of the main source and the background segment to the
re-based window `[0, end - start]` of the background source; the two
windows have the same positive length `end - start`. -/
theorem trimWindowsSpec :
    ∀ start endS : ℚ, start < endS →
      (part001MainSection start endS).window = (start, endS)
      ∧ (part001BgSection start endS).window = (0, endS - start)
      ∧ (segTwoMainTrim start endS).window = (start, endS)
      ∧ (segTwoBgTrim start endS).window = (0, endS - start)
      ∧ (part001MainSection start endS).toSec - (part001MainSection start endS).fromSec
          = (part001BgSection start endS).toSec - (part001BgSection start endS).fromSec
      ∧ (segTwoMainTrim start endS).duration = (segTwoBgTrim start endS).duration
      ∧ 0 < endS - start := by
  intro s e h
  refine ⟨rfl, rfl, ?_, ?_, ?_, rfl, by linarith⟩
  · show (s, s + (e - s)) = (s, e)
    have hs : s + (e - s) = e := by ring
    rw [hs]
  · show ((0 : ℚ), 0 + (e - s)) = (0, e - s)
    rw [zero_add]
  · simp [part001MainSection, part001BgSection]

theorem trimWindowsSpecWitness :
    (part001MainSection 30 45).window = (30, 45)
    ∧ (part001BgSection 30 45).window = (0, 45 - 30)
    ∧ (segTwoMainTrim 30 45).window = (30, 45)
    ∧ (segTwoBgTrim 30 45).window = (0, 45 - 30)
    ∧ (part001MainSection 30 45).toSec - (part001MainSection 30 45).fromSec
        = (part001BgSection 30 45).toSec - (part001BgSection 30 45).fromSec
    ∧ (segTwoMainTrim 30 45).duration = (segTwoBgTrim 30 45).duration
    ∧ (0 : ℚ) < 45 - 30 :=
  trimWindowsSpec 30 45 (by norm_num)
